import Mathlib

/-!
Shallow embedding of the vector-index service (`src/services/faiss_index.py`)
and the retrieval orchestrator (`src/services/query_agent.py`) of the
cv_scan_question_answer repository, with theorems settling the frozen claims.

Modelling conventions:
  * machine floats (numpy float32) are modelled as exact rationals `ℚ`;
  * the third-party `faiss.IndexFlatL2` object is modelled by its documented
    contract: a dimension `d`, an append-ordered list of stored vectors,
    `add` rejecting rows whose length differs from `d`, and `search`
    returning the `nq` nearest stored vectors by squared Euclidean distance
    (ascending, lower insertion id first on ties);
  * Python dictionaries keyed by `str(id)` are modelled as association
    lists keyed by `Nat` (the `str`/`int` conversions are injective);
  * a Python function that can raise is modelled with `Except`; a method
    that mutates `self` and can raise returns the pair
    (state after the call, outcome), the state being the pre-call state
    whenever the exception fires before any mutation, exactly as in the
    source;
  * Python truthiness of an optional string argument (None and "" are
    falsy) is modelled by `Option String` with `none` for the falsy case.
-/

namespace CvScan

/-- Metadata record stored beside each vector. In the source this is a free
form dict; these are the keys the code reads (`candidate_id`, `chunk_type`,
`section`, `text`, `removed`), each `Option` because `dict.get` returns
`None` when the key is absent. The Python key `section` is rendered
`sectionName` because `section` is a Lean keyword. -/
structure ChunkMetadata where
  candidate_id : Option String
  chunk_type : Option String
  sectionName : Option String
  text : Option String
  removed : Bool
deriving DecidableEq

/-- The empty dict default used by `self.metadata.get(str(idx), {})`: every
key lookup yields None, `removed` is absent hence falsy. -/
def emptyMeta : ChunkMetadata :=
  { candidate_id := none, chunk_type := none, sectionName := none,
    text := none, removed := false }

/-- Model of the third-party `faiss.IndexFlatL2` object: fixed dimension and
the stored vectors in append order (`ntotal` is `vectors.length`). -/
structure FaissFlatIndex where
  d : Nat
  vectors : List (List ℚ)
deriving DecidableEq

/-- Error outcomes of the index layer. The source raises library exceptions
(numpy ValueError on ragged stacks, faiss dimension assertion failures);
the spec taxonomy names the condition `DimensionMismatch`. -/
inductive IndexError where
  | dimensionMismatch
deriving DecidableEq

/-- Documented contract of `faiss.IndexFlatL2.add`: every row must have the
index dimension, otherwise the call raises and stores nothing; on success
all rows are appended in order. -/
def faissAdd (idx : FaissFlatIndex) (rows : List (List ℚ)) :
    Except IndexError FaissFlatIndex :=
  if ∀ r ∈ rows, r.length = idx.d then
    .ok { idx with vectors := idx.vectors ++ rows }
  else
    .error .dimensionMismatch

/-- Squared Euclidean distance, the metric `IndexFlatL2` reports. -/
def squaredDist (q v : List ℚ) : ℚ :=
  (List.zipWith (fun a b => (a - b) ^ 2) q v).sum

/-- Insert one (id, distance) pair into a list sorted by ascending distance,
lower id first on equal distances. -/
def insertByDist (p : Nat × ℚ) : List (Nat × ℚ) → List (Nat × ℚ)
  | [] => [p]
  | q :: qs =>
      if p.2 < q.2 ∨ (p.2 = q.2 ∧ p.1 < q.1) then p :: q :: qs
      else q :: insertByDist p qs

/-- Sort (id, distance) pairs by ascending distance, id ascending on ties. -/
def sortByDist (l : List (Nat × ℚ)) : List (Nat × ℚ) :=
  l.foldr insertByDist []

/-- Documented contract of `faiss.IndexFlatL2.search` for `nq ≤ ntotal`:
the `nq` stored vectors nearest to `q` by squared L2 distance, ascending,
lower insertion id first on ties, as (id, distance) pairs. (For
`nq > ntotal` faiss pads with id -1; the caller in the source clamps `nq`
to `ntotal`, so the padding never occurs in the modelled calls.) -/
def faissSearch (idx : FaissFlatIndex) (q : List ℚ) (nq : Nat) :
    List (Nat × ℚ) :=
  let scored := idx.vectors.enum.map (fun p => (p.1, squaredDist q p.2))
  (sortByDist scored).take nq

/-- State of a `FAISSIndex` service object: the wrapped faiss index, the
metadata dict keyed by vector id, and the next id counter. -/
structure FAISSIndexState where
  index : FaissFlatIndex
  metadata : List (Nat × ChunkMetadata)
  next_id : Nat
deriving DecidableEq

/-- Dict assignment `metadata[str(k)] = v`: replace the binding when the key
is present, append it otherwise. -/
def updateMeta (m : List (Nat × ChunkMetadata)) (k : Nat) (v : ChunkMetadata) :
    List (Nat × ChunkMetadata) :=
  if m.any (fun p => p.1 = k) then
    m.map (fun p => if p.1 = k then (k, v) else p)
  else
    m ++ [(k, v)]

/-- Dict read `metadata.get(str(k), {})`. -/
def lookupMeta (m : List (Nat × ChunkMetadata)) (k : Nat) : ChunkMetadata :=
  match m.find? (fun p => p.1 = k) with
  | some p => p.2
  | none => emptyMeta

/-- On-disk state seen by `_load_or_create_index`: each file is absent
(`none`), present but unreadable (`some (.error msg)`, the read raises), or
present and readable (`some (.ok payload)`). -/
structure DiskState where
  indexFile : Option (Except String FaissFlatIndex)
  metadataFile : Option (Except String (List (Nat × ChunkMetadata)))

/-- Next id recovered from loaded metadata:
`max(int(k) for k in metadata.keys()) + 1 if metadata else 0`. -/
def nextIdFrom (m : List (Nat × ChunkMetadata)) : Nat :=
  if m.isEmpty then 0 else (m.map (fun p => p.1)).foldl max 0 + 1

/-- Embedding of `FAISSIndex._load_or_create_index`: read the index file
(creating a fresh `IndexFlatL2(1536)` when the file is absent), then the
metadata sidecar; any exception anywhere in the body is caught and answered
with a fresh empty 1536-dimension index, empty metadata and next id 0 —
the silent-fallback path. -/
def load_or_create_index (disk : DiskState) : FAISSIndexState :=
  let body : Except String FAISSIndexState := do
    let idx ← match disk.indexFile with
      | some r => r
      | none => .ok ⟨1536, []⟩
    let md ← match disk.metadataFile with
      | some r => r
      | none => .ok []
    .ok ⟨idx, md, nextIdFrom md⟩
  match body with
  | .ok st => st
  | .error _ => ⟨⟨1536, []⟩, [], 0⟩

/-- Embedding of `FAISSIndex.add_vector` for a 1-D embedding: reshape to one
row, hand it to `faiss.add` (which raises before mutating anything when the
length differs from the index dimension — the raise is logged and
re-raised, leaving the state untouched), then store the metadata under the
next id and bump the counter. -/
def add_vector (st : FAISSIndexState) (emb : List ℚ) (md : ChunkMetadata) :
    FAISSIndexState × Except IndexError Nat :=
  match faissAdd st.index [emb] with
  | .error e => (st, .error e)
  | .ok idx2 =>
      (⟨idx2, updateMeta st.metadata st.next_id md, st.next_id + 1⟩,
       .ok st.next_id)

/-- Contract of `np.vstack` on a list of 1-D rows: raises on an empty list
and on ragged rows (any row length differing from the first), otherwise
stacks them unchanged. -/
def vstack (embs : List (List ℚ)) : Except IndexError (List (List ℚ)) :=
  match embs with
  | [] => .error .dimensionMismatch
  | e :: rest =>
      if ∀ r ∈ rest, r.length = e.length then .ok (e :: rest)
      else .error .dimensionMismatch

/-- The metadata-storing loop of `add_batch`: one fresh id per metadata
record, in order. Returns the updated dict, the next id counter and the
assigned ids. -/
def storeMetas (md : List (Nat × ChunkMetadata)) (nid : Nat) :
    List ChunkMetadata → List (Nat × ChunkMetadata) × Nat × List Nat
  | [] => (md, nid, [])
  | m :: ms =>
      let r := storeMetas (updateMeta md nid m) (nid + 1) ms
      (r.1, r.2.1, nid :: r.2.2)

/-- Embedding of `FAISSIndex.add_batch`: stack the embeddings (numpy raises
on ragged input before anything is added), add the stacked rows through
`faiss.add` (which raises before mutating when the row length differs from
the index dimension), then run the metadata loop. A raise anywhere is
logged and re-raised with the state untouched. -/
def add_batch (st : FAISSIndexState) (embs : List (List ℚ))
    (metas : List ChunkMetadata) :
    FAISSIndexState × Except IndexError (List Nat) :=
  match vstack embs with
  | .error e => (st, .error e)
  | .ok arr =>
      match faissAdd st.index arr with
      | .error e => (st, .error e)
      | .ok idx2 =>
          let r := storeMetas st.metadata st.next_id metas
          (⟨idx2, r.1, r.2.1⟩, .ok r.2.2)

/-- One formatted search hit: `{'vector_id': ..., 'distance': ..., 'metadata': ...}`. -/
structure SearchResult where
  vector_id : Nat
  distance : ℚ
  metadata : ChunkMetadata
deriving DecidableEq

/-- Body of the result loop of `FAISSIndex.search` for one (id, distance)
pair: look the metadata up (a missing entry behaves as the empty dict),
drop the hit when a candidate filter is supplied and the metadata
candidate id differs, otherwise format the hit. -/
def searchHit (st : FAISSIndexState) (cid : Option String) (p : Nat × ℚ) :
    Option SearchResult :=
  let md := lookupMeta st.metadata p.1
  match cid with
  | some c =>
      if md.candidate_id = some c then some ⟨p.1, p.2, md⟩
      else none
  | none => some ⟨p.1, p.2, md⟩

/-- Embedding of `FAISSIndex.search`: empty index answers `[]`; a query of
the wrong dimension makes `faiss.search` raise, which the catch-all turns
into `[]`; otherwise fetch the `min k ntotal` nearest ids from faiss, run
the result loop (filtering by candidate id when supplied), and truncate
the filtered list to `k`. The `removed` flag is never consulted. -/
def search (st : FAISSIndexState) (q : List ℚ) (k : Nat)
    (cid : Option String) : List SearchResult :=
  if st.index.vectors.length = 0 then []
  else if q.length ≠ st.index.d then []
  else
    ((faissSearch st.index q (min k st.index.vectors.length)).filterMap
      (searchHit st cid)).take k

/-- Embedding of `FAISSIndex.delete_candidate`: set `removed` on every
metadata record whose candidate id matches. (The source also accumulates a
`keys_to_remove` list that it never uses.) Nothing else changes. -/
def delete_candidate (st : FAISSIndexState) (cid : String) : FAISSIndexState :=
  { st with
    metadata := st.metadata.map (fun p =>
      if p.2.candidate_id = some cid then (p.1, { p.2 with removed := true })
      else p) }

/-- Number of stored non-tombstoned metadata records for a candidate: the
`m` of the filtering claim. -/
def matchCount (st : FAISSIndexState) (cid : String) : Nat :=
  (st.metadata.filter (fun p =>
    p.2.removed = false ∧ p.2.candidate_id = some cid)).length

/-!
Embedding of the retrieval orchestrator, `src/services/query_agent.py`.
The structured candidate record mirrors the dict fields that
`_format_context`, `_extract_sources` and `_reconstruct_chunk_text` read.
-/

/-- One work-experience entry of a candidate record. -/
structure Experience where
  title : Option String
  company : Option String
  duration : Option String
  description : Option String
deriving DecidableEq

/-- One project entry of a candidate record. -/
structure Project where
  name : Option String
  description : Option String
  technologies : List String
deriving DecidableEq

/-- One education entry of a candidate record. -/
structure Education where
  degree : Option String
  institution : Option String
  year : Option String
  details : Option String
deriving DecidableEq

/-- One certification entry of a candidate record. -/
structure Certification where
  name : Option String
  issuer : Option String
  year : Option String
deriving DecidableEq

/-- Candidate record as returned by `db_repo.get_candidate`, restricted to
the keys the orchestrator reads. -/
structure Candidate where
  name : Option String
  summary : Option String
  skills : List String
  experience : List Experience
  projects : List Project
  education : List Education
  certifications : List Certification
  interests : List String
deriving DecidableEq

/-- Python f-string interpolation of a value that may be None:
`str(None)` prints "None". -/
def pyStr (o : Option String) : String :=
  match o with
  | some s => s
  | none => "None"

/-- Section number parsed by the reconstruction helper:
`int(section.split(sep)[-1]) if sep in section else 0` with separator the
low line. The Python `int` raises on a non-numeric tail; the claims never
involve such sections and the model answers 0 there. -/
def sectionNum (s : String) : Nat :=
  if s.contains (Char.ofNat 95) then
    (((s.splitOn (String.singleton (Char.ofNat 95))).getLastD "").toNat?).getD 0
  else 0

/-- Embedding of `QueryAgent._reconstruct_chunk_text`: rebuild the chunk
text from the candidate record when the metadata carries no stored text. -/
def reconstruct_chunk_text (cand : Candidate) (chunkType s : String) : String :=
  if chunkType = "summary" then
    (cand.summary).getD ""
  else if chunkType = "skills" then
    "Skills: " ++ String.intercalate ", " cand.skills
  else if chunkType = "experience" then
    match cand.experience.get? (sectionNum s) with
    | some e =>
        pyStr e.title ++ " at " ++ pyStr e.company ++ " (" ++
          (e.duration).getD "" ++ "). " ++ (e.description).getD ""
    | none => ""
  else if chunkType = "project" then
    match cand.projects.get? (sectionNum s) with
    | some p =>
        pyStr p.name ++ ". " ++ (p.description).getD "" ++
          ". Technologies: " ++ String.intercalate ", " p.technologies
    | none => ""
  else if chunkType = "education" then
    match cand.education.get? (sectionNum s) with
    | some e =>
        (e.degree).getD "" ++ " from " ++ (e.institution).getD "" ++ " (" ++
          (e.year).getD "" ++ "). " ++ (e.details).getD ""
    | none => ""
  else if chunkType = "certification" then
    match cand.certifications.get? (sectionNum s) with
    | some c =>
        (c.name).getD "" ++ " from " ++ (c.issuer).getD "" ++ " (" ++
          (c.year).getD "" ++ ")"
    | none => ""
  else if chunkType = "interests" then
    "Interests and Hobbies: " ++ String.intercalate ", " cand.interests
  else ""

/-- Outcomes of the external collaborators for one `answer_question` call:
the embedding call (may raise), the answer-generation call (may raise) and
the read-only candidate lookup. -/
structure Collaborators where
  embedResult : Except String (List ℚ)
  genResult : Except String String
  lookupCandidate : Option String → Option Candidate

/-- Stands in for the Python float formatting of the relevance score
(two decimal places): the exact rational is rendered as numerator/
denominator instead. No claim depends on the rendered digits, only on
whether the surrounding context block is empty. -/
def formatRelevance (r : ℚ) : String :=
  toString r.num ++ "/" ++ toString r.den

/-- Embedding of `QueryAgent._format_context`: per hit, resolve the
candidate (drop the hit when unresolved), default chunk type and section to
"unknown", use the stored metadata text or reconstruct it, drop the hit
when the text is empty, otherwise build the labelled excerpt with the
relevance score `1 / (1 + distance)`; join the parts with the separator
line. -/
def format_context (env : Collaborators) (rs : List SearchResult) : String :=
  let parts := rs.filterMap (fun r =>
    match env.lookupCandidate r.metadata.candidate_id with
    | none => none
    | some cand =>
        let chunkType := (r.metadata.chunk_type).getD "unknown"
        let s := (r.metadata.sectionName).getD "unknown"
        let t0 := (r.metadata.text).getD ""
        let t := if t0 = "" then reconstruct_chunk_text cand chunkType s
                 else t0
        if t = "" then none
        else
          some ("[" ++ pyStr cand.name ++ " - " ++ chunkType.toUpper ++
            " (" ++ s ++ ")]\n" ++ t ++ "\n(Relevance Score: " ++
            formatRelevance (1 / (1 + r.distance)) ++ ")"))
  String.intercalate "\n\n---\n\n" parts

/-- One attribution entry produced by `_extract_sources`. -/
structure SourceEntry where
  candidate_name : Option String
  candidate_id : Option String
  sectionName : Option String
  chunk_type : Option String
  relevance : ℚ
deriving DecidableEq

/-- Embedding of `QueryAgent._extract_sources`: one entry per hit whose
candidate resolves, carrying the same relevance transform. -/
def extract_sources (env : Collaborators) (rs : List SearchResult) :
    List SourceEntry :=
  rs.filterMap (fun r =>
    match env.lookupCandidate r.metadata.candidate_id with
    | none => none
    | some cand =>
        some { candidate_name := cand.name,
               candidate_id := r.metadata.candidate_id,
               sectionName := r.metadata.sectionName,
               chunk_type := r.metadata.chunk_type,
               relevance := 1 / (1 + r.distance) })

/-- Embedding of `QueryAgent._generate_answer`: on success the stripped
collaborator text, on failure the locally caught fixed message. -/
def generate_answer (env : Collaborators) : String :=
  match env.genResult with
  | .ok a => a.trim
  | .error _ => "Unable to generate answer due to an error."

/-- Mean distance of the retrieved set, `np.mean` over the per-hit
distances (every hit produced by `search` carries one). -/
def meanDistance (rs : List SearchResult) : ℚ :=
  (rs.map (fun r => r.distance)).sum / (rs.length : ℚ)

/-- Embedding of `QueryAgent._evaluate_confidence`: empty set answers
"low"; otherwise the mean distance is banded at 1.0 and 2.0. -/
def evaluate_confidence (rs : List SearchResult) : String :=
  if rs = [] then "low"
  else if meanDistance rs < 1 then "high"
  else if meanDistance rs < 2 then "medium"
  else "low"

/-- The structured payload `answer_question` returns. The source returns
the Python list `[]` in the context slot of the degraded payloads and a
string otherwise; both are modelled as `String`, the empty string standing
for the empty list. -/
structure AnswerResult where
  answer : String
  context : String
  sources : List SourceEntry
  confidence : String
deriving DecidableEq

/-- The catch-all payload of `answer_question`: built from the message of
whatever exception escaped the body. -/
def errorPayload (msg : String) : AnswerResult :=
  { answer := "Error processing question: " ++ msg,
    context := "", sources := [], confidence := "error" }

/-- The payload returned when retrieval (after the unscoped retry) is
empty. -/
def noRelevantPayload : AnswerResult :=
  { answer := "No relevant information found in the CV database.",
    context := "", sources := [], confidence := "low" }

/-- Retrieval step of `answer_question`: search with
`search_k = max(top_k, 15)` scoped by the candidate filter; when that
answers nothing and a filter was supplied, repeat the search unscoped. -/
def effectiveResults (st : FAISSIndexState) (qv : List ℚ) (topK : Nat)
    (cid : Option String) : List SearchResult :=
  let r := search st qv (max topK 15) cid
  if r = [] ∧ cid.isSome then search st qv (max topK 15) none else r

/-- Embedding of `QueryAgent.answer_question`: embed the question (a raise
here reaches the catch-all, which answers the in-band error payload),
retrieve with the scoped-then-unscoped rule, answer the no-relevant
payload on empty retrieval, otherwise truncate to `top_k` and assemble
context, sources, generated answer and confidence. -/
def answer_question (env : Collaborators) (st : FAISSIndexState)
    (_question : String) (cid : Option String) (topK : Nat) : AnswerResult :=
  match env.embedResult with
  | .error msg => errorPayload msg
  | .ok qv =>
      let results := effectiveResults st qv topK cid
      if results = [] then noRelevantPayload
      else
        { answer := generate_answer env,
          context := format_context env (results.take topK),
          sources := extract_sources env (results.take topK),
          confidence := evaluate_confidence (results.take topK) }

/-!
Shared helper lemmas and the concrete instances used by the claim theorems.
-/

theorem length_insertByDist (p : Nat × ℚ) (l : List (Nat × ℚ)) :
    (insertByDist p l).length = l.length + 1 := by
  induction l with
  | nil => simp [insertByDist]
  | cons q qs ih =>
      by_cases h : p.2 < q.2 ∨ (p.2 = q.2 ∧ p.1 < q.1)
      · simp [insertByDist, h]
      · simp [insertByDist, h, ih]

theorem length_sortByDist (l : List (Nat × ℚ)) :
    (sortByDist l).length = l.length := by
  induction l with
  | nil => rfl
  | cons p ps ih => simp [sortByDist, List.foldr] at ih ⊢
                    simp [length_insertByDist, ih]

/-- Metadata record of the candidate A chunk in the C1 scenario. -/
def mA1 : ChunkMetadata :=
  ⟨some "A", some "summary", some "summary", some "text A", false⟩

/-- Metadata record of the candidate B chunk in the C1 scenario. -/
def mB1 : ChunkMetadata :=
  ⟨some "B", some "summary", some "summary", some "text B", false⟩

/-- Disk contents of the C1 scenario: a stored 2-dimension index holding
v0 = [0,0] for candidate B and v1 = [1,1] for candidate A. -/
def diskC1 : DiskState :=
  ⟨some (.ok ⟨2, [[0, 0], [1, 1]]⟩), some (.ok [(0, mB1), (1, mA1)])⟩

/-- The C1 index state, reached by loading `diskC1`. -/
def stC1 : FAISSIndexState := load_or_create_index diskC1

/-- Metadata record of the single candidate A chunk in the C2 scenario. -/
def mC2 : ChunkMetadata :=
  ⟨some "A", some "summary", some "summary", some "text A", false⟩

/-- Disk contents of the C2 scenario: one stored vector for candidate A. -/
def diskC2 : DiskState :=
  ⟨some (.ok ⟨2, [[0, 0]]⟩), some (.ok [(0, mC2)])⟩

/-- The C2 index state: load `diskC2`, then tombstone candidate A. -/
def stC2 : FAISSIndexState := delete_candidate (load_or_create_index diskC2) "A"

/-- Metadata record on the readable sidecar of the C3 scenario. -/
def mC3 : ChunkMetadata :=
  ⟨some "A", some "summary", some "summary", some "text A", false⟩

/-- Disk contents of the C3 scenario: the index file is present but
unreadable (the read raises), the metadata sidecar is intact. -/
def diskC3 : DiskState :=
  ⟨some (.error "unreadable header"), some (.ok [(0, mC3)])⟩

/-- Metadata record used by the C4 witness scenario. -/
def mC4 : ChunkMetadata :=
  ⟨some "A", some "skills", some "skills", some "Skills: Python", false⟩

/-- Pre-call index state of the C4 witness scenario. -/
def stC4 : FAISSIndexState := ⟨⟨2, [[5, 5]]⟩, [(0, mC4)], 1⟩

/-- Metadata record used by the C5 witness scenario. -/
def mC5 : ChunkMetadata :=
  ⟨some "B", some "summary", some "summary", some "text B", false⟩

/-- Pre-call index state of the C5 witness scenario. -/
def stC5 : FAISSIndexState := ⟨⟨2, [[5, 5]]⟩, [(0, mC5)], 1⟩

/-- C1: the claim states that the candidate predicate is applied before
selecting the k smallest distances, so that search returns exactly
min(k, m) results and never fewer when m matching records exist. The code
does the opposite (rank, then filter, then truncate): in the loaded state
`stC1` there are two non-tombstoned records of which exactly one (m = 1)
belongs to candidate A, yet search with k = 1 scoped to A returns zero
results instead of min(1, 1) = 1, because the single fetched nearest
neighbour belongs to candidate B and is filtered away afterwards. -/
theorem c1_filter_after_rank_undercounts :
    matchCount stC1 "A" = 1 ∧
    stC1.metadata.length = 2 ∧
    (search stC1 [0, 0] 1 (some "A")).length = 0 := by
  with_unfolding_all decide

/-- C2: the claim states that after delete_candidate every subsequent
search excludes the records of that candidate. The code only flips the
removed flag in the metadata and search never consults the flag: the
tombstoned candidate A record is still returned, here even as the top hit
with distance 0. -/
theorem c2_search_returns_tombstoned :
    stC2.metadata =
      [(0, ⟨some "A", some "summary", some "summary", some "text A", true⟩)] ∧
    search stC2 [0, 0] 1 none =
      [⟨0, 0, ⟨some "A", some "summary", some "summary", some "text A", true⟩⟩] := by
  with_unfolding_all decide

/-- C3: the claim states that loading a corrupt on-disk index fails with a
CorruptIndex error surfaced to the caller and is never silently replaced
with a fresh empty index. The code catches the read error and silently
answers a fresh empty 1536-dimension index with empty metadata, even
discarding the readable metadata sidecar. The second conjunct records the
half of the claim the code does satisfy: loading a nonexistent path
creates an empty index of the configured dimension. -/
theorem c3_corrupt_load_falls_back_silently :
    load_or_create_index diskC3 = ⟨⟨1536, []⟩, [], 0⟩ ∧
    load_or_create_index ⟨none, none⟩ = ⟨⟨1536, []⟩, [], 0⟩ := by
  decide

/-- C4: a batch containing an embedding whose length differs from the index
dimension makes add_batch fail with the dimension-mismatch error while the
whole pre-call state (vector store, metadata map and next id) is returned
untouched: no element of the batch is committed. The raise happens either
in the numpy stack (ragged batch) or in the faiss add (uniform but wrong
length), in both cases before any mutation. -/
theorem c4_add_batch_all_or_nothing (st : FAISSIndexState)
    (embs : List (List ℚ)) (metas : List ChunkMetadata)
    (h : ∃ e ∈ embs, e.length ≠ st.index.d) :
    add_batch st embs metas = (st, .error .dimensionMismatch) := by
  obtain ⟨e, he, hne⟩ := h
  cases embs with
  | nil => simp at he
  | cons e0 rest =>
      by_cases hall : ∀ r ∈ rest, r.length = e0.length
      · have hbad : ¬ ∀ r ∈ e0 :: rest, r.length = st.index.d := by
          intro hforall
          exact hne (hforall e he)
        have hv : vstack (e0 :: rest) = .ok (e0 :: rest) := by
          simp only [vstack]
          rw [if_pos hall]
        have hf : faissAdd st.index (e0 :: rest) = .error .dimensionMismatch := by
          simp only [faissAdd]
          rw [if_neg hbad]
        simp [add_batch, hv, hf]
      · have hv : vstack (e0 :: rest) = .error .dimensionMismatch := by
          simp only [vstack]
          rw [if_neg hall]
        simp [add_batch, hv]

/-- Witness for C4: a batch of one well-sized and one short embedding
against a 2-dimension index is rejected whole, the state unchanged. -/
theorem c4_witness :
    add_batch stC4 [[1, 1], [2]] [mC4, mC4] = (stC4, .error .dimensionMismatch) :=
  c4_add_batch_all_or_nothing stC4 [[1, 1], [2]] [mC4, mC4]
    ⟨[2], by with_unfolding_all decide, by decide⟩

/-- C5: add_vector with an embedding of the wrong length fails with the
dimension-mismatch error and leaves the state untouched (no vector
appended, no metadata entry, next id unchanged); with the correct length
it appends the vector, stores the metadata under the next id, bumps the
counter and returns that id. -/
theorem c5_add_vector_contract (st : FAISSIndexState) (emb : List ℚ)
    (md : ChunkMetadata) :
    (emb.length ≠ st.index.d →
       add_vector st emb md = (st, .error .dimensionMismatch)) ∧
    (emb.length = st.index.d →
       add_vector st emb md =
         (⟨⟨st.index.d, st.index.vectors ++ [emb]⟩,
           updateMeta st.metadata st.next_id md, st.next_id + 1⟩,
          .ok st.next_id)) := by
  constructor
  · intro h
    have hn : ¬ ∀ r ∈ [emb], r.length = st.index.d := by simpa using h
    have hf : faissAdd st.index [emb] = .error .dimensionMismatch := by
      simp only [faissAdd]
      rw [if_neg hn]
    simp [add_vector, hf]
  · intro h
    have hy : ∀ r ∈ [emb], r.length = st.index.d := by simpa using h
    have hf : faissAdd st.index [emb] =
        .ok ⟨st.index.d, st.index.vectors ++ [emb]⟩ := by
      simp only [faissAdd]
      rw [if_pos hy]
    simp [add_vector, hf]

/-- Witness for C5: against a 2-dimension index, a length-1 embedding is
rejected with the state untouched, and a length-2 embedding is committed
under the next id. -/
theorem c5_witness :
    add_vector stC5 [3] mC5 = (stC5, .error .dimensionMismatch) ∧
    add_vector stC5 [3, 4] mC5 =
      (⟨⟨stC5.index.d, stC5.index.vectors ++ [[3, 4]]⟩,
        updateMeta stC5.metadata stC5.next_id mC5, stC5.next_id + 1⟩,
       .ok stC5.next_id) :=
  ⟨(c5_add_vector_contract stC5 [3] mC5).1 (by decide),
   (c5_add_vector_contract stC5 [3, 4] mC5).2 (by decide)⟩

/-- Candidate record resolved in the C6 scenario. -/
def candC6 : Candidate :=
  ⟨some "Alice", some "Py dev", [], [], [], [], [], []⟩

/-- Collaborator outcomes of the C6 scenario: the embedding call succeeds,
the answer-generation call fails, candidate A resolves. -/
def envC6 : Collaborators :=
  ⟨.ok [0, 0], .error "llm down",
   fun c => if c = some "A" then some candC6 else none⟩

/-- Metadata of the single stored chunk in the C6 scenario; the text is
stored, so no reconstruction is needed. -/
def mdC6 : ChunkMetadata :=
  ⟨some "A", some "summary", some "summary", some "Python developer", false⟩

/-- Index state of the C6 scenario: one stored vector at distance 0 from
the query. -/
def stC6 : FAISSIndexState := ⟨⟨2, [[0, 0]]⟩, [(0, mdC6)], 1⟩

/-- C6 counterexample: the claim states that when the answer-generation
collaborator fails the result carries empty context, empty sources and
confidence error. In the code the failure is caught inside the generation
helper, which only substitutes the fixed failure message as the answer;
context, sources and confidence are still computed from the retrieved
results, so here the context is non-empty, one source is listed, and the
confidence is high (mean distance 0), not error. -/
theorem c6_claimed_degradation_false :
    (answer_question envC6 stC6 "q" none 5).answer =
      "Unable to generate answer due to an error." ∧
    (answer_question envC6 stC6 "q" none 5).confidence = "high" ∧
    (answer_question envC6 stC6 "q" none 5).context ≠ "" ∧
    (answer_question envC6 stC6 "q" none 5).sources ≠ [] := by
  with_unfolding_all decide

/-- C6 as amended: when the answer-generation collaborator fails and
retrieval was non-empty, answer_question returns a result whose answer is
the fixed failure message, while context, sources and confidence are the
ones computed normally from the retrieved results; the failure is locally
recovered, not propagated. -/
theorem c6_generation_failure_recovered_locally (env : Collaborators)
    (st : FAISSIndexState) (q : String) (cid : Option String) (k : Nat)
    (qv : List ℚ) (msg : String)
    (hemb : env.embedResult = .ok qv) (hgen : env.genResult = .error msg)
    (hres : effectiveResults st qv k cid ≠ []) :
    answer_question env st q cid k =
      { answer := "Unable to generate answer due to an error.",
        context := format_context env ((effectiveResults st qv k cid).take k),
        sources := extract_sources env ((effectiveResults st qv k cid).take k),
        confidence := evaluate_confidence ((effectiveResults st qv k cid).take k) } := by
  simp [answer_question, hemb, generate_answer, hgen, hres]

/-- Witness for the amended C6 at the concrete scenario. -/
theorem c6_witness :
    answer_question envC6 stC6 "q" none 5 =
      { answer := "Unable to generate answer due to an error.",
        context := format_context envC6 ((effectiveResults stC6 [0, 0] 5 none).take 5),
        sources := extract_sources envC6 ((effectiveResults stC6 [0, 0] 5 none).take 5),
        confidence := evaluate_confidence ((effectiveResults stC6 [0, 0] 5 none).take 5) } :=
  c6_generation_failure_recovered_locally envC6 stC6 "q" none 5 [0, 0] "llm down"
    rfl rfl (by with_unfolding_all decide)

/-- Collaborator outcomes of the C7 scenario: the embedding call fails. -/
def envC7 : Collaborators := ⟨.error "boom", .ok "unused", fun _ => none⟩

/-- Index state of the C7 scenario (never reached by the failing call). -/
def stC7 : FAISSIndexState := ⟨⟨2, [[0, 0]]⟩, [], 1⟩

/-- C7 counterexample: the claim states that an embedding failure is
propagated to the caller of answer_question as an error and is not
downgraded to an in-band payload. In the code the catch-all handler of
answer_question swallows the raise and returns this well-formed in-band
payload with confidence error — nothing propagates. -/
theorem c7_claimed_propagation_false :
    answer_question envC7 stC7 "q" none 5 =
      { answer := "Error processing question: boom", context := "",
        sources := [], confidence := "error" } := by
  with_unfolding_all decide

/-- C7 as amended: when the embedding collaborator fails, answer_question
catches the failure (no internal retry, no propagation) and returns the
in-band degraded payload whose answer embeds the exception message, with
empty context and sources and confidence error. -/
theorem c7_embedding_failure_downgraded (env : Collaborators)
    (st : FAISSIndexState) (q : String) (cid : Option String) (k : Nat)
    (msg : String) (h : env.embedResult = .error msg) :
    answer_question env st q cid k = errorPayload msg ∧
    errorPayload msg =
      { answer := "Error processing question: " ++ msg, context := "",
        sources := [], confidence := "error" } := by
  refine ⟨?_, rfl⟩
  simp [answer_question, h]

/-- Witness for the amended C7 at the concrete scenario. -/
theorem c7_witness :
    answer_question envC7 stC7 "hello" (some "A") 3 = errorPayload "boom" :=
  (c7_embedding_failure_downgraded envC7 stC7 "hello" (some "A") 3 "boom" rfl).1

/-- C8: when the search scoped to a candidate returns nothing,
answer_question behaves exactly as the unscoped call (the search is
repeated without the filter); and when the unscoped retry is empty too —
in particular against an empty index — the well-formed no-relevant-
information payload with confidence low and empty context and sources is
returned, not an error. -/
theorem c8_scoped_fallback (env : Collaborators) (st : FAISSIndexState)
    (q c : String) (k : Nat) (qv : List ℚ)
    (hemb : env.embedResult = .ok qv)
    (hscoped : search st qv (max k 15) (some c) = []) :
    answer_question env st q (some c) k = answer_question env st q none k ∧
    (search st qv (max k 15) none = [] →
      answer_question env st q (some c) k = noRelevantPayload) := by
  have heff : effectiveResults st qv k (some c) = search st qv (max k 15) none := by
    simp [effectiveResults, hscoped]
  have heff2 : effectiveResults st qv k none = search st qv (max k 15) none := by
    simp [effectiveResults]
  constructor
  · simp [answer_question, hemb, heff, heff2]
  · intro huns
    simp [answer_question, hemb, heff, huns, noRelevantPayload]

/-- Candidate record resolved in the C8 witness scenario. -/
def candC8 : Candidate := ⟨some "Bob", some "Dev", [], [], [], [], [], []⟩

/-- Metadata of the single stored chunk in the C8 witness scenario; it
belongs to candidate B, so a search scoped to candidate A is empty. -/
def mdC8 : ChunkMetadata :=
  ⟨some "B", some "summary", some "summary", some "text B", false⟩

/-- Collaborator outcomes of the C8 witness scenario. -/
def envC8 : Collaborators :=
  ⟨.ok [0, 0], .ok "generated",
   fun c => if c = some "B" then some candC8 else none⟩

/-- Index state of the C8 witness scenario. -/
def stC8 : FAISSIndexState := ⟨⟨2, [[0, 0]]⟩, [(0, mdC8)], 1⟩

/-- Witness for C8: scoping to candidate A (no records) yields the same
payload as the unscoped call. -/
theorem c8_witness :
    answer_question envC8 stC8 "q" (some "A") 5 =
      answer_question envC8 stC8 "q" none 5 :=
  (c8_scoped_fallback envC8 stC8 "q" "A" 5 [0, 0] rfl
    (by with_unfolding_all decide)).1

/-- C9: the confidence label is the stated function of the mean distance
of the (post-truncation) retrieved set: an empty set maps to low, a mean
below 1 to high, a mean in [1, 2) to medium (so a mean of exactly 1 is
medium), and a mean of 2 or more to low. -/
theorem c9_confidence_bands (rs : List SearchResult) :
    evaluate_confidence ([] : List SearchResult) = "low" ∧
    (rs ≠ [] → meanDistance rs < 1 → evaluate_confidence rs = "high") ∧
    (rs ≠ [] → 1 ≤ meanDistance rs → meanDistance rs < 2 →
      evaluate_confidence rs = "medium") ∧
    (rs ≠ [] → 2 ≤ meanDistance rs → evaluate_confidence rs = "low") := by
  refine ⟨by simp [evaluate_confidence], ?_, ?_, ?_⟩
  · intro h1 h2
    simp [evaluate_confidence, h1, h2]
  · intro h1 h2 h3
    simp [evaluate_confidence, h1, h3, not_lt.mpr h2]
  · intro h1 h2
    have h3 : ¬ meanDistance rs < 1 := not_lt.mpr (le_trans one_le_two h2)
    have h4 : ¬ meanDistance rs < 2 := not_lt.mpr h2
    simp [evaluate_confidence, h1, h3, h4]

/-- Retrieved set of the C9 witness: distances 1/2 and 3/2, mean exactly 1,
the boundary the spec pins to medium. -/
def rsC9 : List SearchResult :=
  [⟨0, 1/2, emptyMeta⟩, ⟨1, 3/2, emptyMeta⟩]

/-- Witness for C9 at the inclusive boundary: mean distance exactly 1 maps
to medium. -/
theorem c9_witness :
    meanDistance rsC9 = 1 ∧ evaluate_confidence rsC9 = "medium" :=
  ⟨by with_unfolding_all decide,
   (c9_confidence_bands rsC9).2.2.1 (by decide)
     (by with_unfolding_all decide) (by with_unfolding_all decide)⟩

/-- Number of raw neighbours fetched from the modelled faiss index: always
exactly the requested clamp. -/
theorem faissSearch_length (idx : FaissFlatIndex) (q : List ℚ) (nq : Nat) :
    (faissSearch idx q nq).length = min nq idx.vectors.length := by
  simp [faissSearch, List.length_take, length_sortByDist]

/-- C10: search on an index holding zero vectors returns the empty list;
the number of neighbours requested from the underlying store is clamped to
min(k, stored count), the store answering exactly that many raw
neighbours; and consequently the formatted result list never exceeds
min(k, stored count). The embedding is total, mirroring that the source
method catches every exception and cannot raise. -/
theorem c10_search_total_and_clamped (st : FAISSIndexState) (q : List ℚ)
    (k : Nat) (cid : Option String) :
    (st.index.vectors = [] → search st q k cid = []) ∧
    (faissSearch st.index q (min k st.index.vectors.length)).length =
      min k st.index.vectors.length ∧
    (search st q k cid).length ≤ min k st.index.vectors.length := by
  refine ⟨?_, ?_, ?_⟩
  · intro h
    simp [search, h]
  · rw [faissSearch_length]
    omega
  · by_cases h0 : st.index.vectors.length = 0
    · simp [search, h0]
    · by_cases hq : q.length = st.index.d
      · have hs : search st q k cid =
            ((faissSearch st.index q (min k st.index.vectors.length)).filterMap
              (searchHit st cid)).take k := by
          simp [search, h0, hq]
        have h2 := faissSearch_length st.index q (min k st.index.vectors.length)
        have h3 := List.length_filterMap_le (searchHit st cid)
          (faissSearch st.index q (min k st.index.vectors.length))
        rw [hs, List.length_take]
        omega
      · have hs : search st q k cid = [] := by
          simp [search, h0, hq]
        simp [hs]

/-- Pre-call index state of the C10 witness scenario. -/
def stC10 : FAISSIndexState := ⟨⟨2, [[0, 0], [3, 4]]⟩, [(0, mdC8)], 2⟩

/-- Witness for C10 at a concrete state with k larger than the stored
count. -/
theorem c10_witness :
    (search stC10 [1, 1] 5 none).length ≤ min 5 stC10.index.vectors.length :=
  (c10_search_total_and_clamped stC10 [1, 1] 5 none).2.2

end CvScan
